import Mathlib

/-!
Verification of the imx-enet Ethernet-to-stack bridge.

Shallow embedding of the Go sources (`nic.go`, `net.go`, `runtime.go`):
bytes are `Nat` values below 256, buffers are `List Nat`, and the external
collaborators (hardware device, gVisor stack) are modelled as explicit
parameters or oracles recording the calls made to them.
-/

namespace Enet

/-- `enet.MTU` from the external tamago ENET driver (1518 bytes). -/
def MTU : Nat := 1518

/-- `binary.BigEndian.PutUint16` applied to `uint16(v)`: the Go code first
truncates the value to 16 bits, then emits high byte followed by low byte. -/
def putUint16BE (v : Nat) : List Nat := [v % 65536 / 256, v % 256]

/-- `binary.BigEndian.Uint16` over two bytes. -/
def be16 (hi lo : Nat) : Nat := hi * 256 + lo

/-- The packet injected into the virtual link endpoint by `NIC.Rx`:
network protocol number, payload, and the 14 header bytes pushed as
the link header. -/
structure RxPacket where
  proto : Nat
  payload : List Nat
  header : List Nat
deriving DecidableEq, Repr

/-- The fields of an outgoing `stack.PacketBuffer` that `NIC.Tx` reads:
`pkt.EgressRoute.RemoteLinkAddress`, `pkt.NetworkProtocolNumber`, and the
byte slices returned by `pkt.AsSlices()`. -/
structure Packet where
  remoteLinkAddress : List Nat
  networkProtocolNumber : Nat
  slices : List (List Nat)
deriving DecidableEq, Repr

namespace NIC

/-- `NIC.Rx` from nic.go: a frame shorter than 14 bytes is dropped
(no injection, returns `none`); otherwise the header is the first 14
bytes, the ethertype is the big-endian 16-bit value at offsets 12..13,
and the payload is everything from offset 14 on.  The returned value is
the single packet injected via `Link.InjectInbound`. -/
def Rx (buf : List Nat) : Option RxPacket :=
  if buf.length < 14 then
    none
  else
    some { proto := be16 (buf.getD 12 0) (buf.getD 13 0)
         , payload := buf.drop 14
         , header := buf.take 14 }

/-- `NIC.Tx` from nic.go: reads one packet from the channel endpoint
(`eth.Link.Read()`, modelled as the head of the queue); a nil read
returns a nil buffer.  Otherwise the frame is built by appending the
egress route's remote link address, the NIC's own MAC, the big-endian
protocol number, then every payload slice in order.  Returns the built
buffer and the remaining queue. -/
def Tx (mac : List Nat) (queue : List Packet) : List Nat × List Packet :=
  match queue with
  | [] => ([], [])
  | pkt :: rest =>
      (pkt.remoteLinkAddress ++ mac ++ putUint16BE pkt.networkProtocolNumber
        ++ pkt.slices.flatten, rest)

/-- The configuration `NIC.Init` branches on: whether `eth.Link` is
non-nil, `len(eth.MAC)`, and whether `eth.Device` is non-nil. -/
structure InitState where
  hasLink : Bool
  macLen : Nat
  hasDevice : Bool
deriving DecidableEq, Repr

/-- The side effects `NIC.Init` performs when it reaches the device
wiring: `Device.RxHandler = eth.Rx`, `Device.Init()`, and
`Link.AddNotify(&notification{eth})`. -/
structure InitEffects where
  rxHandlerBound : Bool
  deviceInitialized : Bool
  notifyAdded : Bool
deriving DecidableEq, Repr

/-- `NIC.Init` from nic.go: errors when the link endpoint is nil, then
when the MAC is not exactly 6 bytes; with a nil device it returns nil
early, performing none of the device wiring; otherwise it binds the
receive handler, initializes the device and registers the write
notification. -/
def Init (s : InitState) : Except String InitEffects :=
  if !s.hasLink then .error "missing link endpoint"
  else if s.macLen ≠ 6 then .error "invalid MAC address"
  else if !s.hasDevice then .ok ⟨false, false, false⟩
  else .ok ⟨true, true, true⟩

/-- `notification.WriteNotify` from nic.go: on every transmit-ready
notification it executes `n.eth.Device.Tx(n.eth.Tx())` — exactly one call
to the hardware device's transmit entry point, with whatever buffer
`Tx` produced (nil included).  The first component lists the buffers
passed to `Device.Tx`, in order. -/
def writeNotify (mac : List Nat) (queue : List Packet) : List (List Nat) × List Packet :=
  ((Tx mac queue).1 :: [], (Tx mac queue).2)

end NIC

/-- Whether an `Except` carries a value. -/
def exceptOk {ε α : Type} (e : Except ε α) : Bool :=
  match e with
  | .ok _ => true
  | .error _ => false

/-- Index of the last occurrence of `c` in `s` (the Go `last` helper
used by `net.SplitHostPort`). -/
def lastIndexOf (s : List Char) (c : Char) : Option Nat :=
  ((List.range s.length).filter (fun i => s.getD i ' ' == c)).getLast?

/-- Index of the first occurrence of `c` in `s`
(Go `bytealg.IndexByteString`). -/
def firstIndexOf (s : List Char) (c : Char) : Option Nat :=
  ((List.range s.length).filter (fun i => s.getD i ' ' == c)).head?

/-- `net.SplitHostPort` from the Go standard library, as consumed by
`fullAddr`: the host/port split happens at the last colon, with the
bracketed-host cases of the library reproduced; every failure mode of
the library is an `.error` here (messages abbreviated). -/
def splitHostPort (hostport : List Char) : Except String (List Char × List Char) :=
  match lastIndexOf hostport ':' with
  | none => .error "missing port in address"
  | some i =>
    if hostport.getD 0 ' ' == '[' then
      match firstIndexOf hostport ']' with
      | none => .error "missing bracket in address"
      | some e =>
        if e + 1 == hostport.length then
          .error "missing port in address"
        else if e + 1 == i then
          if (firstIndexOf (hostport.drop 1) '[').isSome then
            .error "unexpected bracket in address"
          else if (firstIndexOf (hostport.drop (e + 1)) ']').isSome then
            .error "unexpected bracket in address"
          else
            .ok ((hostport.take e).drop 1, hostport.drop (i + 1))
        else if hostport.getD (e + 1) ' ' == ':' then
          .error "too many colons in address"
        else
          .error "missing port in address"
    else
      if (firstIndexOf (hostport.take i) ':').isSome then
        .error "too many colons in address"
      else if (firstIndexOf hostport '[').isSome then
        .error "unexpected bracket in address"
      else if (firstIndexOf hostport ']').isSome then
        .error "unexpected bracket in address"
      else
        .ok (hostport.take i, hostport.drop (i + 1))

/-- Decimal digits to a number (the accumulation inside `strconv.Atoi`). -/
def digitsToNat (s : List Char) : Nat :=
  s.foldl (fun acc c => acc * 10 + (c.toNat - 48)) 0

/-- `strconv.Atoi` on the port component: an optional sign followed by
decimal digits parses, anything else is a syntax error; a parsed value
outside the platform int range is a range error.  The package's only
supported target is `GOOS=tamago GOARCH=arm`, where int is 32 bits, so
the range is -2147483648 .. 2147483647 (Atoi's fast path skips the
check only for inputs short enough to always fit it). -/
def atoi (s : List Char) : Except String Int :=
  if s.isEmpty then .error "invalid syntax"
  else
    let neg := s.getD 0 ' ' == '-'
    let ds := if s.getD 0 ' ' == '-' || s.getD 0 ' ' == '+' then s.drop 1 else s
    if ds.isEmpty then .error "invalid syntax"
    else if ds.all (fun c => c.isDigit) then
      let v : Int := if neg then -(digitsToNat ds : Int) else (digitsToNat ds : Int)
      if v < -2147483648 ∨ 2147483647 < v then .error "value out of range"
      else .ok v
    else .error "invalid syntax"

/-- The pieces of a `tcpip.FullAddress` this core computes: the host
string handed to `net.ParseIP` (that external parser's byte-level
output is kept symbolic) and the port after the `uint16` conversion. -/
structure FullAddress where
  host : List Char
  port : Nat
deriving DecidableEq, Repr

/-- `fullAddr` from net.go: when `SplitHostPort` succeeds the port must
parse as an integer, else that error is surfaced; when `SplitHostPort`
fails the whole input becomes the host, the port stays 0, and NO error
is returned.  The parsed port is truncated to `uint16`. -/
def fullAddr (a : String) : Except String FullAddress :=
  match splitHostPort a.toList with
  | .ok hp =>
      match atoi hp.2 with
      | .ok p => .ok ⟨hp.1, (p % 65536).toNat⟩
      | .error e => .error e
  | .error _ => .ok ⟨a.toList, 0⟩

/-- The observable outcome of `Interface.DialContextTCP4`. -/
inductive DialResult
  | conn
  | parseError (msg : String)
  | stackErr
deriving DecidableEq, Repr

/-- `Interface.DialContextTCP4` from net.go: parse the address with
`fullAddr`, surfacing its error; otherwise hand the parsed address to
`gonet.DialContextTCP`, whose success is the external stack's verdict
(`dialOk` oracle). -/
def DialContextTCP4 (dialOk : Bool) (address : String) : DialResult :=
  match fullAddr address with
  | .error e => .parseError e
  | .ok _ => if dialOk then .conn else .stackErr

/-- `syscall.AF_INET`. -/
def AF_INET : Nat := 2
/-- `syscall.AF_INET6`. -/
def AF_INET6 : Nat := 10
/-- `syscall.SOCK_STREAM`. -/
def SOCK_STREAM : Nat := 1
/-- `syscall.SOCK_DGRAM`. -/
def SOCK_DGRAM : Nat := 2

/-- The error kinds `Interface.Socket` can return. -/
inductive SockErr
  | parseError
  | unsupportedFamily
  | unsupportedSocketType
  | unsupportedNetwork
  | stackError
deriving DecidableEq, Repr

/-- The `(c net.Conn, l net.Listener, err error)` result triple of
`Interface.Socket`, recording nil-ness of each component. -/
structure SocketResult where
  conn : Bool
  listener : Bool
  err : Option SockErr
deriving DecidableEq, Repr

/-- Verdicts of the external gonet stack calls that `Socket` delegates
to (`DialUDP`, `DialContextTCP`, `ListenTCP`). -/
structure StackOracle where
  dialUDPOk : Bool
  dialTCPOk : Bool
  listenTCPOk : Bool
deriving DecidableEq, Repr

/-- Whether the Go guard `addr != nil && addr.String() != "<nil>"`
fires and the subsequent `fullAddr` call fails. -/
def parseFails (a : Option String) : Bool :=
  match a with
  | none => false
  | some s => s != "<nil>" && !(exceptOk (fullAddr s))

/-- `Interface.Socket` from runtime.go: parse the local then remote
address when present; reject any family other than `AF_INET`; for
network "udp" require `SOCK_DGRAM` and dial UDP; for "tcp" require
`SOCK_STREAM`, then dial when a remote address is present (nil-ness of
`raddr`, not its parsed value, selects the branch) and listen
otherwise; any other network is rejected. -/
def Socket (g : StackOracle) (network : String) (family sotype : Nat)
    (laddr raddr : Option String) : SocketResult :=
  if parseFails laddr then ⟨false, false, some .parseError⟩
  else if parseFails raddr then ⟨false, false, some .parseError⟩
  else if family ≠ AF_INET then ⟨false, false, some .unsupportedFamily⟩
  else if network = "udp" then
    if sotype ≠ SOCK_DGRAM then ⟨false, false, some .unsupportedSocketType⟩
    else if g.dialUDPOk then ⟨true, false, none⟩
    else ⟨false, false, some .stackError⟩
  else if network = "tcp" then
    if sotype ≠ SOCK_STREAM then ⟨false, false, some .unsupportedSocketType⟩
    else
      match raddr with
      | some _ =>
          if g.dialTCPOk then ⟨true, false, none⟩ else ⟨false, false, some .stackError⟩
      | none =>
          if g.listenTCPOk then ⟨false, true, none⟩ else ⟨false, false, some .stackError⟩
  else ⟨false, false, some .unsupportedNetwork⟩

/-- `ipv4.ProtocolNumber` (the IPv4 ethertype). -/
def ipv4ProtocolNumber : Nat := 2048
/-- `ipv6.ProtocolNumber` (the IPv6 ethertype). -/
def ipv6ProtocolNumber : Nat := 34525

/-- Byte `i` of the CIDR mask for prefix length `plen`, as produced by
the gvisor mask construction used inside `AddressWithPrefix.Subnet()`. -/
def maskByteOf (plen i : Nat) : Nat := 256 - 2 ^ (8 - min 8 (plen - 8 * i))

/-- A `tcpip.Subnet`: masked address plus mask. -/
structure Subnet where
  address : List Nat
  mask : List Nat
deriving DecidableEq, Repr

/-- `AddressWithPrefix.Subnet()`: the address masked down to the
prefix, together with the mask itself. -/
def subnetOf (addr : List Nat) (plen : Nat) : Subnet :=
  ⟨(List.range addr.length).map (fun i => Nat.land (addr.getD i 0) (maskByteOf plen i)),
   (List.range addr.length).map (fun i => maskByteOf plen i)⟩

/-- `header.IPv4EmptySubnet`: 0.0.0.0/0. -/
def IPv4EmptySubnet : Subnet := ⟨[0, 0, 0, 0], [0, 0, 0, 0]⟩
/-- `header.IPv6EmptySubnet`: ::/0. -/
def IPv6EmptySubnet : Subnet := ⟨List.replicate 16 0, List.replicate 16 0⟩

/-- A `tcpip.Route`: destination subnet, gateway address (empty when
none is set — the Go zero value), owning NIC id. -/
structure Route where
  destination : Subnet
  gateway : List Nat
  nic : Nat
deriving DecidableEq, Repr

/-- `IPConfig` from net.go: address with prefix plus gateway. -/
structure IPConfig where
  address : List Nat
  PrefixLen : Nat
  gateway : List Nat
deriving DecidableEq, Repr

/-- `tcpip.Address.Unspecified()`: every byte is zero. -/
def unspecified (a : List Nat) : Bool := a.all (fun b => b == 0)

/-- `Interface.configureProtocol` from net.go: register the protocol
address (the stack's verdict is the `addOk` oracle; on failure the
error propagates and no routes are returned); then build the
directly-connected subnet route, and, when the gateway is
non-unspecified and the protocol is one of the two mapped ones, append
the default route through the gateway. -/
def configureProtocol (nicid : Nat) (p : Nat) (cfg : IPConfig) (addOk : Bool) :
    Except Unit (List Route) :=
  if !addOk then .error ()
  else
    let rt : List Route := [⟨subnetOf cfg.address cfg.PrefixLen, [], nicid⟩]
    if !(unspecified cfg.gateway) then
      match (if p == ipv4ProtocolNumber then some IPv4EmptySubnet
             else if p == ipv6ProtocolNumber then some IPv6EmptySubnet
             else none) with
      | some dst => .ok (rt ++ [⟨dst, cfg.gateway, nicid⟩])
      | none => .ok rt
    else .ok rt

/-- Modelled from the spec: the broadcast link address the gateway
cache is initialized and reset to (§4.3).  The Neighbor Cache component
is absent from the sources provided (only the spec describes it), so it
is reconstructed from the specification text. -/
def broadcastLinkAddress : List Nat := [255, 255, 255, 255, 255, 255]

/-- Modelled from the spec: a neighbor entry as seen by the observer
callbacks — a network address plus its resolved link-layer address. -/
structure NeighborEntry where
  addr : List Nat
  linkAddr : List Nat
deriving DecidableEq, Repr

/-- Modelled from the spec: the three neighbor-resolution callbacks
delivered to the observer. -/
inductive NeighborEvent
  | added (e : NeighborEntry)
  | changed (e : NeighborEntry)
  | removed (e : NeighborEntry)
deriving DecidableEq, Repr

/-- Modelled from the spec: the state the Neighbor Cache writes — the
configured gateway network address and the cached gateway link
address. -/
structure GatewayCache where
  gateway : List Nat
  cached : List Nat
deriving DecidableEq, Repr

/-- Modelled from the spec: the cache starts at broadcast. -/
def GatewayCache.init (g : List Nat) : GatewayCache := ⟨g, broadcastLinkAddress⟩

/-- Modelled from the spec: add/change overwrite the cache when the
entry matches the gateway address and carries a non-empty link address;
removal of the gateway entry resets the cache to broadcast; every other
event leaves the cache unchanged. -/
def GatewayCache.step (st : GatewayCache) (ev : NeighborEvent) : GatewayCache :=
  match ev with
  | .added e | .changed e =>
      if e.addr = st.gateway ∧ e.linkAddr ≠ [] then { st with cached := e.linkAddr }
      else st
  | .removed e =>
      if e.addr = st.gateway then { st with cached := broadcastLinkAddress }
      else st

/-- C1: decoding an encoded single-slice frame recovers the ethertype and
the payload.  The frame is the one `NIC.Tx` builds for a packet whose
egress route resolved to `m1`, sent from a NIC whose MAC is `m2`. -/
theorem codec_round_trip (p m1 m2 : List Nat) (t : Nat)
    (h1 : m1.length = 6) (h2 : m2.length = 6) (hne : m1 ≠ m2)
    (ht : t < 65536) (hp : p.length ≤ MTU) :
    (NIC.Rx (NIC.Tx m2 [⟨m1, t, [p]⟩]).1).map (fun r => (r.proto, r.payload))
      = some (t, p) := by
  have hfla : ([p] : List (List Nat)).flatten = p := by simp
  have hbytes : putUint16BE t = [t / 256, t % 256] := by
    simp [putUint16BE, Nat.mod_eq_of_lt ht]
  have hframe : (NIC.Tx m2 [⟨m1, t, [p]⟩]).1
      = (m1 ++ m2) ++ ([t / 256, t % 256] ++ p) := by
    simp [NIC.Tx, hbytes]
  have h12 : (m1 ++ m2).length = 12 := by simp [h1, h2]
  have hlen : ((m1 ++ m2) ++ ([t / 256, t % 256] ++ p)).length = 14 + p.length := by
    simp only [List.length_append, List.length_cons, List.length_nil, h1, h2]
    omega
  have hget12 : ((m1 ++ m2) ++ ([t / 256, t % 256] ++ p)).getD 12 0 = t / 256 := by
    rw [List.getD_append_right _ _ _ _ (by omega)]
    simp [h12]
  have hget13 : ((m1 ++ m2) ++ ([t / 256, t % 256] ++ p)).getD 13 0 = t % 256 := by
    rw [List.getD_append_right _ _ _ _ (by omega)]
    simp [h12]
  have hdrop : ((m1 ++ m2) ++ ([t / 256, t % 256] ++ p)).drop 14 = p := by
    have : ((m1 ++ m2) ++ [t / 256, t % 256]).length = 14 := by
      simp only [List.length_append, List.length_cons, List.length_nil, h1, h2]
    rw [show (m1 ++ m2) ++ ([t / 256, t % 256] ++ p)
          = ((m1 ++ m2) ++ [t / 256, t % 256]) ++ p by simp,
        ← this, List.drop_left]
  rw [hframe, NIC.Rx]
  rw [if_neg (by omega)]
  simp only [Option.map_some, hget12, hget13, hdrop]
  have : be16 (t / 256) (t % 256) = t := by
    simp only [be16]
    omega
  rw [this]
  simp

theorem codec_round_trip_witness :
    (NIC.Rx (NIC.Tx [7, 8, 9, 10, 11, 12]
        [⟨[1, 2, 3, 4, 5, 6], 2048, [[42, 43]]⟩]).1).map
      (fun r => (r.proto, r.payload)) = some (2048, [42, 43]) :=
  codec_round_trip [42, 43] [1, 2, 3, 4, 5, 6] [7, 8, 9, 10, 11, 12] 2048
    (by decide) (by decide) (by decide) (by decide) (by decide)

/-- C2: `NIC.Rx` drops buffers shorter than 14 bytes with no injection
and no error; for buffers of 14 bytes or more it injects exactly one
packet whose protocol number is the big-endian 16-bit value at offsets
12..13 and whose payload is everything from offset 14 on. -/
theorem rx_short_drop_or_inject (b : List Nat) :
    (b.length < 14 → NIC.Rx b = none) ∧
    (14 ≤ b.length →
      NIC.Rx b = some ⟨be16 (b.getD 12 0) (b.getD 13 0), b.drop 14, b.take 14⟩) := by
  constructor
  · intro h
    simp only [NIC.Rx]
    rw [if_pos h]
  · intro h
    simp only [NIC.Rx]
    rw [if_neg (by omega)]

theorem rx_short_drop_or_inject_witness :
    NIC.Rx [0, 0, 0, 0, 0, 0, 0, 0, 0, 0, 0, 0, 0] = none ∧
    NIC.Rx [1, 2, 3, 4, 5, 6, 7, 8, 9, 10, 11, 12, 8, 0, 99] =
      some ⟨2048, [99], [1, 2, 3, 4, 5, 6, 7, 8, 9, 10, 11, 12, 8, 0]⟩ :=
  ⟨(rx_short_drop_or_inject _).1 (by decide),
   ((rx_short_drop_or_inject [1, 2, 3, 4, 5, 6, 7, 8, 9, 10, 11, 12, 8, 0, 99]).2
      (by decide)).trans (by decide)⟩

/-- C3: for a non-nil packet at the head of the link endpoint queue,
`NIC.Tx` produces exactly the destination link address, then the NIC's
MAC, then the big-endian protocol number, then the payload slices in
order; the frame length is 14 plus the sum of the slice lengths, with
no truncation or padding, and exactly that one packet is consumed. -/
theorem tx_frame_exact (mac : List Nat) (pkt : Packet) (rest : List Packet)
    (hm : mac.length = 6) (hd : pkt.remoteLinkAddress.length = 6)
    (hp : pkt.networkProtocolNumber < 65536) :
    (NIC.Tx mac (pkt :: rest)).1
      = pkt.remoteLinkAddress ++ mac
          ++ [pkt.networkProtocolNumber / 256, pkt.networkProtocolNumber % 256]
          ++ pkt.slices.flatten
    ∧ (NIC.Tx mac (pkt :: rest)).1.length = 14 + (pkt.slices.map List.length).sum
    ∧ (NIC.Tx mac (pkt :: rest)).2 = rest := by
  refine ⟨?_, ?_, rfl⟩
  · simp [NIC.Tx, putUint16BE, Nat.mod_eq_of_lt hp]
  · simp only [NIC.Tx, List.length_append, List.length_cons, List.length_nil,
      List.length_flatten, hm, hd, putUint16BE]

theorem tx_frame_exact_witness :
    (NIC.Tx [10, 11, 12, 13, 14, 15]
        [⟨[1, 2, 3, 4, 5, 6], 2048, [[7, 8], [9]]⟩]).1
      = [1, 2, 3, 4, 5, 6] ++ [10, 11, 12, 13, 14, 15] ++ [8, 0] ++ [7, 8, 9] :=
  ((tx_frame_exact [10, 11, 12, 13, 14, 15] ⟨[1, 2, 3, 4, 5, 6], 2048, [[7, 8], [9]]⟩ []
      (by decide) (by decide) (by decide)).1).trans (by decide)

/-- C4 counterexample: with an empty link endpoint queue, the
transmit-ready notification still makes exactly one call to the
hardware device's transmit entry point, passing a nil (empty) buffer —
it is not the case that no device call is made. -/
theorem drain_empty_device_call :
    (NIC.writeNotify [0, 1, 2, 3, 4, 5] []).1 = [[]] ∧
    (NIC.writeNotify [0, 1, 2, 3, 4, 5] []).1 ≠ [] := by decide

/-- C4 amended: when the notification fires with an empty queue, no
packet is read and no frame content is produced, but `Device.Tx` is
still invoked exactly once, with the nil buffer. -/
theorem drain_empty_amended (mac : List Nat) :
    NIC.writeNotify mac [] = ([[]], []) := by
  simp [NIC.writeNotify, NIC.Tx]

/-- C7 counterexample: with a present link endpoint, a 6-byte MAC and
an absent hardware device, `NIC.Init` succeeds yet binds no receive
handler and registers no transmit-ready observer. -/
theorem init_missing_device_counterexample :
    NIC.Init ⟨true, 6, false⟩ = .ok ⟨false, false, false⟩ ∧
    (NIC.InitEffects.mk false false false).rxHandlerBound = false ∧
    (NIC.InitEffects.mk false false false).notifyAdded = false :=
  ⟨rfl, rfl, rfl⟩

/-- C7 amended: `NIC.Init` fails if and only if the link endpoint is
absent or the MAC is not exactly 6 bytes; on success with a present
device it binds the receive callback and registers the transmit-ready
observer, while with an absent device it succeeds doing neither. -/
theorem init_amended (s : NIC.InitState) :
    ((∃ e, NIC.Init s = .error e) ↔ (s.hasLink = false ∨ s.macLen ≠ 6)) ∧
    (s.hasLink = true → s.macLen = 6 → s.hasDevice = true →
      NIC.Init s = .ok ⟨true, true, true⟩) ∧
    (s.hasLink = true → s.macLen = 6 → s.hasDevice = false →
      NIC.Init s = .ok ⟨false, false, false⟩) := by
  obtain ⟨l, m, d⟩ := s
  cases l <;> cases d <;> by_cases hm : m = 6 <;>
    simp [NIC.Init, hm]

theorem init_amended_witness :
    NIC.Init ⟨true, 6, true⟩ = .ok ⟨true, true, true⟩ ∧
    ¬ (∃ e, NIC.Init ⟨true, 6, true⟩ = .error e) ∧
    (∃ e, NIC.Init ⟨false, 6, true⟩ = .error e) :=
  ⟨(init_amended ⟨true, 6, true⟩).2.1 rfl rfl rfl,
   fun h => by
     have := (init_amended ⟨true, 6, true⟩).1.mp h
     simp at this,
   (init_amended ⟨false, 6, true⟩).1.mpr (Or.inl rfl)⟩

/-- Every branch of `Socket` sets at most one of (conn, listener), and
exactly one when no error is returned. -/
theorem socket_exclusive (g : StackOracle) (network : String) (family sotype : Nat)
    (laddr raddr : Option String) :
    ((Socket g network family sotype laddr raddr).err = none →
      ((Socket g network family sotype laddr raddr).conn = true ∧
        (Socket g network family sotype laddr raddr).listener = false) ∨
      ((Socket g network family sotype laddr raddr).conn = false ∧
        (Socket g network family sotype laddr raddr).listener = true)) ∧
    ((Socket g network family sotype laddr raddr).err ≠ none →
      (Socket g network family sotype laddr raddr).conn = false ∧
      (Socket g network family sotype laddr raddr).listener = false) := by
  unfold Socket
  cases raddr <;> split_ifs <;> simp_all

/-- C5: the Socket dispatch matrix of runtime.go, for calls whose
present addresses parse: a family other than `AF_INET` is rejected as
unsupported family; "udp" with a non-datagram type and "tcp" with a
non-stream type are rejected as unsupported socket type; any other
network name is rejected as unsupported network; "tcp"+stream dials
when a remote address is present and listens otherwise; on success
exactly one of (conn, listener) is set, and on error neither is. -/
theorem socket_dispatch (g : StackOracle) (network : String) (family sotype : Nat)
    (laddr raddr : Option String)
    (hl : parseFails laddr = false) (hr : parseFails raddr = false) :
    (family ≠ AF_INET →
      Socket g network family sotype laddr raddr
        = ⟨false, false, some .unsupportedFamily⟩) ∧
    (family = AF_INET → network = "udp" → sotype ≠ SOCK_DGRAM →
      Socket g network family sotype laddr raddr
        = ⟨false, false, some .unsupportedSocketType⟩) ∧
    (family = AF_INET → network = "tcp" → sotype ≠ SOCK_STREAM →
      Socket g network family sotype laddr raddr
        = ⟨false, false, some .unsupportedSocketType⟩) ∧
    (family = AF_INET → network ≠ "udp" → network ≠ "tcp" →
      Socket g network family sotype laddr raddr
        = ⟨false, false, some .unsupportedNetwork⟩) ∧
    (family = AF_INET → network = "tcp" → sotype = SOCK_STREAM →
      ∀ r, raddr = some r →
        Socket g network family sotype laddr raddr
          = (if g.dialTCPOk then ⟨true, false, none⟩
             else ⟨false, false, some .stackError⟩)) ∧
    (family = AF_INET → network = "tcp" → sotype = SOCK_STREAM → raddr = none →
      Socket g network family sotype laddr raddr
        = (if g.listenTCPOk then ⟨false, true, none⟩
           else ⟨false, false, some .stackError⟩)) ∧
    (((Socket g network family sotype laddr raddr).err = none →
        ((Socket g network family sotype laddr raddr).conn = true ∧
          (Socket g network family sotype laddr raddr).listener = false) ∨
        ((Socket g network family sotype laddr raddr).conn = false ∧
          (Socket g network family sotype laddr raddr).listener = true)) ∧
      ((Socket g network family sotype laddr raddr).err ≠ none →
        (Socket g network family sotype laddr raddr).conn = false ∧
        (Socket g network family sotype laddr raddr).listener = false)) := by
  refine ⟨?_, ?_, ?_, ?_, ?_, ?_, socket_exclusive g network family sotype laddr raddr⟩
  · intro hf
    simp [Socket, hl, hr, hf]
  · intro hf hn hs
    subst hf hn
    simp [Socket, hl, hr, hs]
  · intro hf hn hs
    subst hf hn
    simp [Socket, hl, hr, hs]
  · intro hf hu ht
    subst hf
    simp [Socket, hl, hr, hu, ht]
  · intro hf hn hs r hraddr
    subst hf hn hs hraddr
    simp [Socket, hl, hr]
  · intro hf hn hs hraddr
    subst hf hn hs hraddr
    simp [Socket, hl, hr]

theorem socket_dispatch_witness :
    parseFails (some "10.0.0.2:8080") = false ∧
    Socket ⟨true, true, true⟩ "tcp" AF_INET SOCK_STREAM none (some "10.0.0.2:8080")
      = ⟨true, false, none⟩ ∧
    Socket ⟨true, true, true⟩ "tcp" AF_INET6 SOCK_STREAM none none
      = ⟨false, false, some .unsupportedFamily⟩ ∧
    Socket ⟨true, true, true⟩ "icmp" AF_INET SOCK_STREAM none none
      = ⟨false, false, some .unsupportedNetwork⟩ ∧
    Socket ⟨true, true, true⟩ "tcp" AF_INET SOCK_DGRAM none none
      = ⟨false, false, some .unsupportedSocketType⟩ := by
  refine ⟨by rfl, ?_, ?_, ?_, ?_⟩
  · exact ((socket_dispatch ⟨true, true, true⟩ "tcp" AF_INET SOCK_STREAM none
      (some "10.0.0.2:8080") (by rfl) (by rfl)).2.2.2.2.1 rfl rfl rfl
      "10.0.0.2:8080" rfl).trans (by rfl)
  · exact (socket_dispatch ⟨true, true, true⟩ "tcp" AF_INET6 SOCK_STREAM none none
      (by rfl) (by rfl)).1 (by decide)
  · exact (socket_dispatch ⟨true, true, true⟩ "icmp" AF_INET SOCK_STREAM none none
      (by rfl) (by rfl)).2.2.2.1 rfl (by decide) (by decide)
  · exact (socket_dispatch ⟨true, true, true⟩ "tcp" AF_INET SOCK_DGRAM none none
      (by rfl) (by rfl)).2.2.1 rfl rfl (by decide)

/-- C6: configuring IPv4 with a non-unspecified gateway returns exactly
two routes on the configured NIC id — the directly-connected subnet
route with no gateway, then the all-zero default route through the
gateway; with an unspecified gateway only the subnet route. -/
theorem route_installation (nicid : Nat) (cfg cfg2 : IPConfig)
    (hgw : unspecified cfg.gateway = false)
    (hgw2 : unspecified cfg2.gateway = true) :
    configureProtocol nicid ipv4ProtocolNumber cfg true =
      .ok [⟨subnetOf cfg.address cfg.PrefixLen, [], nicid⟩,
           ⟨IPv4EmptySubnet, cfg.gateway, nicid⟩] ∧
    configureProtocol nicid ipv4ProtocolNumber cfg2 true =
      .ok [⟨subnetOf cfg2.address cfg2.PrefixLen, [], nicid⟩] := by
  constructor
  · simp [configureProtocol, hgw]
  · simp [configureProtocol, hgw2]

theorem route_installation_witness :
    configureProtocol 1 ipv4ProtocolNumber ⟨[10, 0, 0, 2], 24, [10, 0, 0, 1]⟩ true =
      .ok [⟨⟨[10, 0, 0, 0], [255, 255, 255, 0]⟩, [], 1⟩,
           ⟨⟨[0, 0, 0, 0], [0, 0, 0, 0]⟩, [10, 0, 0, 1], 1⟩] ∧
    configureProtocol 1 ipv4ProtocolNumber ⟨[10, 0, 0, 2], 24, [0, 0, 0, 0]⟩ true =
      .ok [⟨⟨[10, 0, 0, 0], [255, 255, 255, 0]⟩, [], 1⟩] :=
  ⟨((route_installation 1 ⟨[10, 0, 0, 2], 24, [10, 0, 0, 1]⟩
      ⟨[10, 0, 0, 2], 24, [0, 0, 0, 0]⟩ (by rfl) (by rfl)).1).trans (by rfl),
   ((route_installation 1 ⟨[10, 0, 0, 2], 24, [10, 0, 0, 1]⟩
      ⟨[10, 0, 0, 2], 24, [0, 0, 0, 0]⟩ (by rfl) (by rfl)).2).trans (by rfl)⟩

/-- C8 counterexample: an address with no port component does not make
the dial fail with a parse error — `fullAddr` succeeds (whole input as
host, port 0) and, with a stack that accepts the dial, a connection is
returned. -/
theorem dial_no_port_counterexample :
    fullAddr "10.0.0.1" = .ok ⟨"10.0.0.1".toList, 0⟩ ∧
    DialContextTCP4 true "10.0.0.1" = .conn := by
  constructor <;> rfl

/-- C8 amended: `DialContextTCP4` fails with a parse error exactly when
the address splits as host:port but the port does not parse as an
integer; when the split itself fails (no port component), `fullAddr`
succeeds with the whole input as host and port 0 and the dial proceeds
to the stack. -/
theorem dial_parse_amended (dialOk : Bool) (a : String) :
    (∀ host port, splitHostPort a.toList = .ok (host, port) →
      ∀ e, atoi port = .error e →
        fullAddr a = .error e ∧ DialContextTCP4 dialOk a = .parseError e) ∧
    (∀ e, splitHostPort a.toList = .error e →
      fullAddr a = .ok ⟨a.toList, 0⟩ ∧
      DialContextTCP4 dialOk a = (if dialOk then .conn else .stackErr)) ∧
    (∀ e, DialContextTCP4 dialOk a = .parseError e →
      ∃ host port, splitHostPort a.toList = .ok (host, port) ∧ atoi port = .error e) := by
  refine ⟨?_, ?_, ?_⟩
  · intro host port hsp e hat
    have hf : fullAddr a = .error e := by
      simp only [fullAddr, hsp, hat]
    exact ⟨hf, by simp only [DialContextTCP4, hf]⟩
  · intro e hsp
    have hf : fullAddr a = .ok ⟨a.toList, 0⟩ := by
      simp only [fullAddr, hsp]
    refine ⟨hf, ?_⟩
    simp only [DialContextTCP4, hf]
  · intro e hd
    cases hsp : splitHostPort a.toList with
    | error m =>
        have hf : fullAddr a = .ok ⟨a.toList, 0⟩ := by
          simp only [fullAddr, hsp]
        rw [DialContextTCP4, hf] at hd
        by_cases hb : dialOk = true <;> simp [hb] at hd
    | ok hp =>
        cases hat : atoi hp.2 with
        | error m =>
            have hf : fullAddr a = .error m := by
              simp only [fullAddr, hsp, hat]
            rw [DialContextTCP4, hf] at hd
            cases hd
            exact ⟨hp.1, hp.2, rfl, hat⟩
        | ok p =>
            have hf : fullAddr a = .ok ⟨hp.1, (p % 65536).toNat⟩ := by
              simp only [fullAddr, hsp, hat]
            rw [DialContextTCP4, hf] at hd
            by_cases hb : dialOk = true <;> simp [hb] at hd

theorem dial_parse_amended_witness :
    fullAddr "10.0.0.2:x" = .error "invalid syntax" ∧
    DialContextTCP4 true "10.0.0.2:x" = .parseError "invalid syntax" ∧
    fullAddr "10.0.0.2:4000000000" = .error "value out of range" ∧
    DialContextTCP4 true "10.0.0.2:4000000000" = .parseError "value out of range" ∧
    fullAddr "192.168.1.1" = .ok ⟨"192.168.1.1".toList, 0⟩ := by
  have h1 := (dial_parse_amended true "10.0.0.2:x").1 "10.0.0.2".toList "x".toList
    (by rfl) "invalid syntax" (by rfl)
  have h2 := (dial_parse_amended true "10.0.0.2:4000000000").1 "10.0.0.2".toList
    "4000000000".toList (by rfl) "value out of range" (by rfl)
  have h3 := (dial_parse_amended true "192.168.1.1").2.1 "missing port in address" (by rfl)
  exact ⟨h1.1, h1.2, h2.1, h2.2, h3.1⟩

/-- A step of the gateway cache never writes an empty link address. -/
theorem gateway_step_cached_ne_nil (st : GatewayCache) (ev : NeighborEvent)
    (h : st.cached ≠ []) : (st.step ev).cached ≠ [] := by
  cases ev with
  | added e =>
      simp only [GatewayCache.step]
      split_ifs with hc
      · exact hc.2
      · exact h
  | changed e =>
      simp only [GatewayCache.step]
      split_ifs with hc
      · exact hc.2
      · exact h
  | removed e =>
      simp only [GatewayCache.step]
      split_ifs with hc
      · simp [broadcastLinkAddress]
      · exact h

/-- The cache invariant holds along any event sequence from init. -/
theorem gateway_foldl_cached_ne_nil (evs : List NeighborEvent) (st : GatewayCache)
    (h : st.cached ≠ []) : (evs.foldl GatewayCache.step st).cached ≠ [] := by
  induction evs generalizing st with
  | nil => exact h
  | cons e rest ih =>
      exact ih _ (gateway_step_cached_ne_nil st e h)

/-- C9: the gateway link-address cache starts at broadcast; an add for
the gateway with a non-empty link address, then a change, then a
removal yield cache states L, L2, broadcast; events for any other
address leave the cache unchanged; and no reachable cache state holds a
zero-length link address. -/
theorem gateway_cache_lifecycle (G L L2 x : List Nat)
    (hL : L ≠ []) (hL2 : L2 ≠ []) :
    (GatewayCache.init G).cached = broadcastLinkAddress ∧
    ((GatewayCache.init G).step (.added ⟨G, L⟩)).cached = L ∧
    (((GatewayCache.init G).step (.added ⟨G, L⟩)).step (.changed ⟨G, L2⟩)).cached = L2 ∧
    ((((GatewayCache.init G).step (.added ⟨G, L⟩)).step (.changed ⟨G, L2⟩)).step
        (.removed ⟨G, x⟩)).cached = broadcastLinkAddress ∧
    (∀ (st : GatewayCache) (a l : List Nat), a ≠ st.gateway →
      (st.step (.added ⟨a, l⟩)).cached = st.cached ∧
      (st.step (.changed ⟨a, l⟩)).cached = st.cached ∧
      (st.step (.removed ⟨a, l⟩)).cached = st.cached) ∧
    (∀ (g : List Nat) (evs : List NeighborEvent),
      (evs.foldl GatewayCache.step (GatewayCache.init g)).cached ≠ []) := by
  refine ⟨rfl, ?_, ?_, ?_, ?_, ?_⟩
  · simp [GatewayCache.step, GatewayCache.init, hL]
  · simp [GatewayCache.step, GatewayCache.init, hL, hL2]
  · simp [GatewayCache.step, GatewayCache.init, hL, hL2]
  · intro st a l ha
    refine ⟨?_, ?_, ?_⟩ <;> simp [GatewayCache.step, ha]
  · intro g evs
    exact gateway_foldl_cached_ne_nil evs (GatewayCache.init g)
      (by simp [GatewayCache.init, broadcastLinkAddress])

theorem gateway_cache_lifecycle_witness :
    (([1, 2, 3, 4, 5, 6] : List Nat) ≠ []) ∧
    ((GatewayCache.init [10, 0, 0, 1]).step
        (.added ⟨[10, 0, 0, 1], [1, 2, 3, 4, 5, 6]⟩)).cached = [1, 2, 3, 4, 5, 6] ∧
    ((((GatewayCache.init [10, 0, 0, 1]).step
        (.added ⟨[10, 0, 0, 1], [1, 2, 3, 4, 5, 6]⟩)).step
        (.changed ⟨[10, 0, 0, 1], [6, 5, 4, 3, 2, 1]⟩)).step
        (.removed ⟨[10, 0, 0, 1], [0]⟩)).cached = broadcastLinkAddress :=
  ⟨by decide,
   (gateway_cache_lifecycle [10, 0, 0, 1] [1, 2, 3, 4, 5, 6] [6, 5, 4, 3, 2, 1] [0]
      (by decide) (by decide)).2.1,
   (gateway_cache_lifecycle [10, 0, 0, 1] [1, 2, 3, 4, 5, 6] [6, 5, 4, 3, 2, 1] [0]
      (by decide) (by decide)).2.2.2.1⟩

end Enet
